import Mathlib

set_option linter.unusedVariables false

deriving instance DecidableEq for Except

/-! Shallow embedding of the busmap-front client: the SPTrans API service
    (src/app/app.service.ts) and the main map view controller
    (AppComponent, whose source is embedded in COMO_EXECUTAR.md).

    Conventions of the embedding:
    - An RxJS observable settles with either a value or an HTTP error; we
      model a settled emission as Except Nat alpha, the Nat being the HTTP
      status inspected by mostrarErro.
    - A cold service observable also records which HTTP requests running it
      issues, so a service call is a pair: settled emission plus request log.
    - The single-threaded callback interleaving of the per-line position
      subscriptions is modelled by an explicit list of settle events given
      in arrival order; theorems hypothesise that each dispatched request
      settles exactly once.
    - Leaflet markers are identified by the Nat id they receive from a
      fresh-id counter in the component state; the map object carries the
      list of marker overlays currently added to it. -/

/-- A transit line record as returned by the line-search endpoint.  The
component and service only ever read the candidate code fields cl, c,
codigo, codigoLinha and the destination label sl; each may be absent
(none) or present, possibly as the JS-falsy empty string. -/
structure Linha where
  cl : Option String
  c : Option String
  codigo : Option String
  codigoLinha : Option String
  sl : Option String
deriving DecidableEq

/-- JS truthiness of an optional string field: undefined and the empty
string are falsy. -/
def jsStrTruthy : Option String → Bool
  | none => false
  | some s => decide (s ≠ "")

/-- JS expression a or-else b on optional string fields. -/
def jsOr (a b : Option String) : Option String :=
  if jsStrTruthy a then a else b

/-- The source expression linha.cl, or-else linha.c, or-else linha.codigo,
or-else linha.codigoLinha, normalised to none when the whole chain is
falsy (the callers only test the truthiness of the result before use). -/
def extrairCodigo (l : Linha) : Option String :=
  let r := jsOr l.cl (jsOr l.c (jsOr l.codigo l.codigoLinha))
  if jsStrTruthy r then r else none

/-- One vehicle entry of a position response.  The fields py and px hold
the outcome of parseFloat on the latitude and longitude strings: none
models a value whose parse is NaN (rejected by adicionarMarcador), some q
a finite parsed coordinate.  ta is the timestamp, a the accessibility
flag. -/
structure Veiculo where
  py : Option Rat
  px : Option Rat
  ta : Option String
  a : Bool
deriving DecidableEq

/-- A position response: hr is the update time, vs the vehicle array.
vs = none models a response whose vs field is missing or not an array
(the component guards with Array.isArray). -/
structure Posicoes where
  hr : String
  vs : Option (List Veiculo)
deriving DecidableEq

/-- The payload of the line-search endpooint as seen by processarLinhas:
null-ish data, data that is not an array, or an actual array of lines. -/
inductive LinhasResp
  | nullResp
  | notArray
  | arr (linhas : List Linha)
deriving DecidableEq

/-- The status endpoint payload; the service default on failure sets
autenticado false and erro true. -/
structure Status where
  autenticado : Bool
  erro : Bool
deriving DecidableEq

/-- An outbound HTTP request issued by the service. -/
inductive Req
  | linhas (termo : String)
  | pos (cod : String)
  | status
deriving DecidableEq

/-- True exactly on a per-line position request. -/
def Req.isPos : Req → Bool
  | .pos _ => true
  | _ => false

/-- The upstream HTTP world: what each endpoint answers (a payload, or an
HTTP error status). -/
structure Env where
  linhasHttp : String → Except Nat LinhasResp
  posHttp : String → Except Nat Posicoes
  statusHttp : Except Nat Status

/-- rxjs catchError on a settled emission: a value passes through, an
error is replaced by the handler result. -/
def rxCatch {α : Type} (h : Nat → Except Nat α) : Except Nat α → Except Nat α
  | .ok a => .ok a
  | .error e => h e

/-- A settled service observable: its emission plus the log of HTTP
requests issued when it ran. -/
abbrev Obs (α : Type) := Except Nat α × List Req

namespace SptransService

/-- Service buscarLinhas: GET the line-search endpoint, catching every
failure and emitting the empty array instead. -/
def buscarLinhas (env : Env) (termo : String) : Obs LinhasResp :=
  (rxCatch (fun _ => .ok (.arr [])) (env.linhasHttp termo), [Req.linhas termo])

/-- Service buscarPosicoes: GET the position endpoint for a line code,
catching every failure and emitting the record with empty hr and empty vs
instead. -/
def buscarPosicoes (env : Env) (cod : String) : Obs Posicoes :=
  (rxCatch (fun _ => .ok { hr := "", vs := some [] }) (env.posHttp cod), [Req.pos cod])

/-- Service verificarStatus: GET the status endpoint, catching every
failure and emitting the record with autenticado false and erro true
instead. -/
def verificarStatus (env : Env) : Obs Status :=
  (rxCatch (fun _ => .ok { autenticado := false, erro := true }) env.statusHttp, [Req.status])

end SptransService

/-- The spread record built by buscarTodasPosicoes for one line:
the line object together with hr and vs fields. -/
structure LinhaComPos where
  linha : Linha
  hr : String
  vs : List Veiculo

/-- The per-line element observable built (but not run) inside
buscarTodasPosicoes: for a line without a truthy code, of the line spread
with empty hr and vs (no request); otherwise the buscarPosicoes pipe
mapped to the spread record. -/
def posObsParaLinha (linha : Linha) : Env → Obs LinhaComPos :=
  match extrairCodigo linha with
  | none => fun _ => (.ok { linha := linha, hr := "", vs := [] }, [])
  | some cod => fun env =>
    let r := SptransService.buscarPosicoes env cod
    (r.1.map (fun pos => { linha := linha, hr := pos.hr, vs := pos.vs.getD [] }), r.2)

namespace SptransService

/-- Service buscarTodasPosicoes: runs buscarLinhas, then emits the array
of per-line observables built by mapping over the lines; it does not run
any of them.  A null-ish or empty response yields the empty array, and a
non-array response makes linhas.map throw, which the trailing catchError
converts to the empty array as well. -/
def buscarTodasPosicoes (env : Env) (termo : String) :
    Obs (List (Env → Obs LinhaComPos)) :=
  let r := buscarLinhas env termo
  match r.1 with
  | .error _ => (.ok [], r.2)
  | .ok .nullResp => (.ok [], r.2)
  | .ok .notArray => (.ok [], r.2)
  | .ok (.arr linhas) =>
    if linhas.isEmpty then (.ok [], r.2)
    else (.ok (linhas.map posObsParaLinha), r.2)

end SptransService

/-- The Leaflet map object as the component sees it: the list of marker
overlays currently added to it. -/
structure MapState where
  layers : List Nat
deriving DecidableEq

/-- The view-controller state of AppComponent.  nextId is the fresh-id
counter for newly created Leaflet markers. -/
structure AppState where
  termoBusca : String
  carregando : Bool
  totalBuscas : Nat
  ultimoErro : String
  marcadoresOnibus : List Nat
  mapa : Option MapState
  nextId : Nat
deriving DecidableEq

/-- An observable action of the view controller: user alerts, the HTTP
requests it issues, marker additions and removals on the map, the
viewport fitBounds, the invocation of mostrarResultadoFinal (recording
the totals it reports), and the invocation of mostrarErro with the
HTTP status it inspects. -/
inductive Act
  | alert (msg : String)
  | reqLinhas (termo : String)
  | reqPos (cod : String)
  | addMarker (id : Nat)
  | removeMarker (id : Nat)
  | fitBounds
  | resultadoFinal (totalOnibus linhasProcessadas : Nat)
  | erroAlert (status : Nat)
deriving DecidableEq

/-- True exactly on a resultadoFinal act. -/
def Act.isFinal : Act → Bool
  | .resultadoFinal _ _ => true
  | _ => false

/-- True exactly on the fitBounds act. -/
def Act.isFit : Act → Bool
  | .fitBounds => true
  | _ => false

/-- True exactly on a per-line position request act. -/
def Act.isReqPos : Act → Bool
  | .reqPos _ => true
  | _ => false

/-- True exactly on a marker addition act. -/
def Act.isAdd : Act → Bool
  | .addMarker _ => true
  | _ => false

/-- True exactly on a marker removal act. -/
def Act.isRemove : Act → Bool
  | .removeMarker _ => true
  | _ => false

/-- True exactly on a mostrarErro act. -/
def Act.isErro : Act → Bool
  | .erroAlert _ => true
  | _ => false

/-- Component limparMarcadores: a no-op without a map; otherwise removes
each marker in marcadoresOnibus from the map and empties the list. -/
def limparMarcadores (st : AppState) : AppState × List Act :=
  match st.mapa with
  | none => (st, [])
  | some m =>
    let layers := st.marcadoresOnibus.foldl (fun ls mk => ls.erase mk) m.layers
    ({ st with marcadoresOnibus := [], mapa := some { m with layers := layers } },
     st.marcadoresOnibus.map Act.removeMarker)

/-- Component adicionarMarcador: a no-op without a map (or Leaflet); a
no-op when parseFloat of the latitude or longitude is NaN; otherwise
creates a fresh marker, adds it to the map and pushes it onto
marcadoresOnibus. -/
def adicionarMarcador (st : AppState) (onibus : Veiculo) (linha : Linha) :
    AppState × List Act :=
  match st.mapa with
  | none => (st, [])
  | some m =>
    match onibus.py, onibus.px with
    | some _, some _ =>
      ({ st with nextId := st.nextId + 1,
                 marcadoresOnibus := st.marcadoresOnibus ++ [st.nextId],
                 mapa := some { m with layers := m.layers ++ [st.nextId] } },
       [Act.addMarker st.nextId])
    | _, _ => (st, [])

/-- Component mostrarResultadoFinal: always reports the totals summary;
when at least one bus was added it additionally fits the viewport to the
markers before alerting success, otherwise it alerts that no bus is
active. -/
def mostrarResultadoFinal (totalOnibus linhasProcessadas : Nat) (termo : String) :
    List Act :=
  if 0 < totalOnibus then
    [Act.resultadoFinal totalOnibus linhasProcessadas, Act.fitBounds,
     Act.alert ("encontrados onibus para " ++ termo)]
  else
    [Act.resultadoFinal totalOnibus linhasProcessadas,
     Act.alert ("nenhum onibus ativo para " ++ termo)]

/-- Component mostrarErro: sets ultimoErro from the HTTP status and
alerts the user. -/
def mostrarErro (st : AppState) (status : Nat) : AppState × List Act :=
  let ue := if status = 0 then "Conexao falhou"
    else if status = 404 then "Endpoint 404"
    else if status = 500 then "Servidor 500"
    else "HTTP " ++ toString status
  ({ st with ultimoErro := ue }, [Act.erroAlert status])

/-- The inner forEach over posicoes.vs of the position-subscription next
callback: for each vehicle, adicionarMarcador then totalOnibus increment.
Returns the updated state, the updated running bus total and the acts. -/
def processarVeiculos (st : AppState) (tot : Nat) (vs : List Veiculo)
    (linha : Linha) : AppState × Nat × List Act :=
  match vs with
  | [] => (st, tot, [])
  | v :: rest =>
    let r := adicionarMarcador st v linha
    let after := processarVeiculos r.1 (tot + 1) rest linha
    (after.1, after.2.1, r.2 ++ after.2.2)

/-- The accumulator of the fan-in over settled position requests: the
component state, the closure-captured counters totalOnibus and
linhasProcessadas of processarLinhas, and the acts so far. -/
structure FanAcc where
  st : AppState
  totalOnibus : Nat
  linhasProcessadas : Nat
  acts : List Act
deriving DecidableEq

/-- The branch body of one settled position request (before the
completion check): an error settles with no state change; a success with
a present non-empty vehicle array runs the vehicle loop; any other
success changes nothing. -/
def settleBody (st : AppState) (tot : Nat) (ev : Linha × Except Nat Posicoes) :
    AppState × Nat × List Act :=
  match ev.2 with
  | .error _ => (st, tot, [])
  | .ok pos =>
    match pos.vs with
    | some vs => if vs.isEmpty then (st, tot, []) else processarVeiculos st tot vs ev.1
    | none => (st, tot, [])

/-- One settled position request of processarLinhas: increment
linhasProcessadas, run the branch body, and when linhasProcessadas has
reached totalLinhas invoke mostrarResultadoFinal with the current
totals. -/
def settleStep (totalLinhas : Nat) (termo : String) (acc : FanAcc)
    (ev : Linha × Except Nat Posicoes) : FanAcc :=
  let lp := acc.linhasProcessadas + 1
  let body := settleBody acc.st acc.totalOnibus ev
  let finActs := if lp = totalLinhas then mostrarResultadoFinal body.2.1 lp termo else []
  ⟨body.1, body.2.1, lp, acc.acts ++ (body.2.2 ++ finActs)⟩

/-- The dispatched per-line position requests of processarLinhas: the
lines whose extracted code is truthy, paired with that code (lines
without a truthy code are skipped by the forEach). -/
def dispatchList (linhas : List Linha) : List (Linha × String) :=
  linhas.filterMap fun l => (extrairCodigo l).map fun c => (l, c)

/-- The fan-in of processarLinhas over the settle events of the
dispatched requests, in arrival order, starting from zeroed counters. -/
def processarLinhasAcc (st : AppState) (linhas : List Linha) (termo : String)
    (settles : List (Linha × Except Nat Posicoes)) : FanAcc :=
  settles.foldl (settleStep linhas.length termo) ⟨st, 0, 0, []⟩

/-- Component processarLinhas: alerts on null-ish, non-array or empty
data; otherwise dispatches one position request per line with a truthy
code and processes the settle events. -/
def processarLinhas (st : AppState) (resp : LinhasResp) (termo : String)
    (settles : List (Linha × Except Nat Posicoes)) : AppState × List Act :=
  match resp with
  | .nullResp => (st, [Act.alert ("api retornou dados vazios para " ++ termo)])
  | .notArray => (st, [Act.alert "formato de dados inesperado da api"])
  | .arr linhas =>
    if linhas.isEmpty then (st, [Act.alert ("nenhuma linha encontrada para " ++ termo)])
    else
      let reqActs := (dispatchList linhas).map fun lc => Act.reqPos lc.2
      let acc := processarLinhasAcc st linhas termo settles
      (acc.st, reqActs ++ acc.acts)

/-- A whitespace character as the JS string trim sees it (the common
cases: space, tab, newline, carriage return). -/
def isEspaco (c : Char) : Bool := c = ' ' || c = '\t' || c = '\n' || c = '\r'

/-- The JS trim on the search term: drops leading and trailing
whitespace. -/
def jsTrim (s : String) : String :=
  String.mk (((s.data.dropWhile isEspaco).reverse.dropWhile isEspaco).reverse)

/-- Component buscarLinhas (the search entry point): validates a
non-empty trimmed term and a ready map; then sets the loading flag,
clears the previous markers, issues the line-search request and hands
the settled emission to processarLinhas (next) or mostrarErro (error). -/
def componentBuscarLinhas (env : Env) (st : AppState)
    (settles : List (Linha × Except Nat Posicoes)) : AppState × List Act :=
  if jsTrim st.termoBusca = "" then
    (st, [Act.alert "digite um numero de linha ou nome de bairro"])
  else if st.mapa.isNone then
    (st, [Act.alert "aguarde o mapa carregar"])
  else
    let termo := (jsTrim st.termoBusca)
    let st1 : AppState :=
      { st with carregando := true, ultimoErro := "", totalBuscas := st.totalBuscas + 1 }
    let cleared := limparMarcadores st1
    match (SptransService.buscarLinhas env termo).1 with
    | .ok resp =>
      let st3 : AppState := { cleared.1 with carregando := false }
      let proc := processarLinhas st3 resp termo settles
      (proc.1, cleared.2 ++ Act.reqLinhas termo :: proc.2)
    | .error s =>
      let st3 : AppState := { cleared.1 with carregando := false }
      let err := mostrarErro st3 s
      (err.1, cleared.2 ++ Act.reqLinhas termo :: err.2)

/-- The shape of acts that can be produced inside the fan-in (by the
settle callbacks): marker additions, summaries, viewport fits and
alerts. -/
def fanActLike : Act → Bool
  | .addMarker _ => true
  | .resultadoFinal _ _ => true
  | .fitBounds => true
  | .alert _ => true
  | _ => false

theorem isAdd_fanActLike {a : Act} (h : a.isAdd = true) : fanActLike a = true := by
  cases a <;> simp_all [Act.isAdd, fanActLike]

theorem isAdd_not_final {a : Act} (h : a.isAdd = true) : a.isFinal = false := by
  cases a <;> simp_all [Act.isAdd, Act.isFinal]

theorem isAdd_not_fit {a : Act} (h : a.isAdd = true) : a.isFit = false := by
  cases a <;> simp_all [Act.isAdd, Act.isFit]

theorem fanActLike_not_reqPos {a : Act} (h : fanActLike a = true) : a.isReqPos = false := by
  cases a <;> simp_all [fanActLike, Act.isReqPos]

theorem fanActLike_not_erro {a : Act} (h : fanActLike a = true) : a.isErro = false := by
  cases a <;> simp_all [fanActLike, Act.isErro]

theorem mostrar_countP_final (t lp : Nat) (termo : String) :
    (mostrarResultadoFinal t lp termo).countP Act.isFinal = 1 := by
  unfold mostrarResultadoFinal
  split <;> simp [List.countP_cons, Act.isFinal]

theorem mostrar_countP_fit (t lp : Nat) (termo : String) :
    (mostrarResultadoFinal t lp termo).countP Act.isFit = if 0 < t then 1 else 0 := by
  unfold mostrarResultadoFinal
  by_cases h : 0 < t <;> simp [h, List.countP_cons, Act.isFit]

theorem mostrar_mem_fanActLike (t lp : Nat) (termo : String) :
    ∀ a ∈ mostrarResultadoFinal t lp termo, fanActLike a = true := by
  intro a ha
  unfold mostrarResultadoFinal at ha
  split at ha
  · simp at ha
    rcases ha with h | h | h <;> subst h <;> rfl
  · simp at ha
    rcases ha with h | h <;> subst h <;> rfl

theorem adicionarMarcador_acts (st : AppState) (v : Veiculo) (linha : Linha) :
    ∀ a ∈ (adicionarMarcador st v linha).2, a.isAdd = true := by
  intro a ha
  unfold adicionarMarcador at ha
  rcases hm : st.mapa with _ | m <;> rw [hm] at ha
  · simp at ha
  · rcases hp : v.py with _ | q <;> rcases hq : v.px with _ | r <;>
      rw [hp, hq] at ha <;> simp at ha
    subst ha; rfl

theorem adicionarMarcador_len (st : AppState) (v : Veiculo) (linha : Linha) :
    (adicionarMarcador st v linha).1.marcadoresOnibus.length
      ≤ st.marcadoresOnibus.length + 1 := by
  unfold adicionarMarcador
  rcases hm : st.mapa with _ | m
  · simp
  · rcases hp : v.py with _ | q <;> rcases hq : v.px with _ | r <;> simp

theorem processarVeiculos_tot (vs : List Veiculo) :
    ∀ (st : AppState) (tot : Nat) (linha : Linha),
      (processarVeiculos st tot vs linha).2.1 = tot + vs.length := by
  induction vs with
  | nil => intro st tot linha; rfl
  | cons v rest ih =>
    intro st tot linha
    unfold processarVeiculos
    simp [ih]
    omega

theorem processarVeiculos_acts (vs : List Veiculo) :
    ∀ (st : AppState) (tot : Nat) (linha : Linha) (a : Act),
      a ∈ (processarVeiculos st tot vs linha).2.2 → a.isAdd = true := by
  induction vs with
  | nil => intro st tot linha a ha; simp [processarVeiculos] at ha
  | cons v rest ih =>
    intro st tot linha a ha
    unfold processarVeiculos at ha
    simp at ha
    rcases ha with h | h
    · exact adicionarMarcador_acts st v linha a h
    · exact ih _ _ _ _ h

theorem processarVeiculos_inv (vs : List Veiculo) :
    ∀ (st : AppState) (tot : Nat) (linha : Linha),
      st.marcadoresOnibus.length ≤ tot →
      (processarVeiculos st tot vs linha).1.marcadoresOnibus.length
        ≤ (processarVeiculos st tot vs linha).2.1 := by
  induction vs with
  | nil => intro st tot linha h; exact h
  | cons v rest ih =>
    intro st tot linha h
    unfold processarVeiculos
    exact ih _ _ _ (le_trans (adicionarMarcador_len st v linha) (by omega))

theorem settleBody_acts (st : AppState) (tot : Nat) (ev : Linha × Except Nat Posicoes) :
    ∀ a ∈ (settleBody st tot ev).2.2, a.isAdd = true := by
  rcases ev with ⟨l, r⟩
  rcases r with s | pos
  · intro a ha; simp [settleBody] at ha
  · rcases hvs : pos.vs with _ | vs
    · intro a ha; simp [settleBody, hvs] at ha
    · rcases vs with _ | ⟨v, rest⟩
      · intro a ha; simp [settleBody, hvs] at ha
      · intro a ha
        simp [settleBody, hvs] at ha
        exact processarVeiculos_acts _ _ _ _ _ ha

theorem settleBody_inv (st : AppState) (tot : Nat) (ev : Linha × Except Nat Posicoes)
    (h : st.marcadoresOnibus.length ≤ tot) :
    (settleBody st tot ev).1.marcadoresOnibus.length ≤ (settleBody st tot ev).2.1 := by
  rcases ev with ⟨l, r⟩
  rcases r with s | pos
  · simpa [settleBody] using h
  · rcases hvs : pos.vs with _ | vs
    · simpa [settleBody, hvs] using h
    · rcases vs with _ | ⟨v, rest⟩
      · simpa [settleBody, hvs] using h
      · simp [settleBody, hvs]
        exact processarVeiculos_inv _ _ _ _ h

theorem settleStep_lp (T : Nat) (termo : String) (acc : FanAcc)
    (ev : Linha × Except Nat Posicoes) :
    (settleStep T termo acc ev).linhasProcessadas = acc.linhasProcessadas + 1 := rfl

theorem settleStep_st (T : Nat) (termo : String) (acc : FanAcc)
    (ev : Linha × Except Nat Posicoes) :
    (settleStep T termo acc ev).st = (settleBody acc.st acc.totalOnibus ev).1 := rfl

theorem settleStep_tot (T : Nat) (termo : String) (acc : FanAcc)
    (ev : Linha × Except Nat Posicoes) :
    (settleStep T termo acc ev).totalOnibus = (settleBody acc.st acc.totalOnibus ev).2.1 := rfl

theorem settleStep_acts (T : Nat) (termo : String) (acc : FanAcc)
    (ev : Linha × Except Nat Posicoes) :
    (settleStep T termo acc ev).acts
      = acc.acts ++ ((settleBody acc.st acc.totalOnibus ev).2.2
        ++ if acc.linhasProcessadas + 1 = T then
             mostrarResultadoFinal (settleBody acc.st acc.totalOnibus ev).2.1
               (acc.linhasProcessadas + 1) termo
           else []) := rfl

theorem countP_body_final (st : AppState) (tot : Nat) (ev : Linha × Except Nat Posicoes) :
    ((settleBody st tot ev).2.2).countP Act.isFinal = 0 := by
  rw [List.countP_eq_zero]
  intro a ha
  simp [isAdd_not_final (settleBody_acts st tot ev a ha)]

theorem countP_body_fit (st : AppState) (tot : Nat) (ev : Linha × Except Nat Posicoes) :
    ((settleBody st tot ev).2.2).countP Act.isFit = 0 := by
  rw [List.countP_eq_zero]
  intro a ha
  simp [isAdd_not_fit (settleBody_acts st tot ev a ha)]

theorem fold_lp (T : Nat) (termo : String) :
    ∀ (settles : List (Linha × Except Nat Posicoes)) (acc : FanAcc),
      ((settles.foldl (settleStep T termo) acc).linhasProcessadas)
        = acc.linhasProcessadas + settles.length := by
  intro settles
  induction settles with
  | nil => intro acc; simp
  | cons e rest ih =>
    intro acc
    rw [List.foldl_cons, ih, settleStep_lp]
    simp
    omega

theorem fold_finals_under (T : Nat) (termo : String) :
    ∀ (settles : List (Linha × Except Nat Posicoes)) (acc : FanAcc),
      acc.linhasProcessadas + settles.length < T →
      ((settles.foldl (settleStep T termo) acc).acts).countP Act.isFinal
        = acc.acts.countP Act.isFinal := by
  intro settles
  induction settles with
  | nil => intro acc h; rfl
  | cons e rest ih =>
    intro acc h
    rw [List.foldl_cons, ih _ (by rw [settleStep_lp]; simp at h ⊢; omega)]
    rw [settleStep_acts, List.countP_append, List.countP_append]
    rw [if_neg (by simp at h; omega), countP_body_final]
    simp

theorem fold_finals_exact (T : Nat) (termo : String) :
    ∀ (settles : List (Linha × Except Nat Posicoes)) (acc : FanAcc),
      settles ≠ [] →
      acc.linhasProcessadas + settles.length = T →
      ((settles.foldl (settleStep T termo) acc).acts).countP Act.isFinal
        = acc.acts.countP Act.isFinal + 1 := by
  intro settles
  induction settles with
  | nil => intro acc h hT; exact absurd rfl h
  | cons e rest ih =>
    intro acc _ hT
    rw [List.foldl_cons]
    rcases rest with _ | ⟨e2, rest2⟩
    · rw [List.foldl_nil, settleStep_acts, List.countP_append, List.countP_append]
      rw [if_pos (by simp at hT; omega), countP_body_final, mostrar_countP_final]
    · rw [ih _ (by simp) (by rw [settleStep_lp]; simp at hT ⊢; omega)]
      rw [settleStep_acts, List.countP_append, List.countP_append]
      rw [if_neg (by simp at hT; omega), countP_body_final]
      simp

theorem fold_fits_exact (T : Nat) (termo : String) :
    ∀ (settles : List (Linha × Except Nat Posicoes)) (acc : FanAcc),
      settles ≠ [] →
      acc.linhasProcessadas + settles.length = T →
      ((settles.foldl (settleStep T termo) acc).acts).countP Act.isFit
        = acc.acts.countP Act.isFit
          + (if 0 < (settles.foldl (settleStep T termo) acc).totalOnibus then 1 else 0) := by
  intro settles
  induction settles with
  | nil => intro acc h hT; exact absurd rfl h
  | cons e rest ih =>
    intro acc _ hT
    rw [List.foldl_cons]
    rcases rest with _ | ⟨e2, rest2⟩
    · rw [List.foldl_nil, settleStep_acts, List.countP_append, List.countP_append]
      rw [if_pos (by simp at hT; omega), countP_body_fit, mostrar_countP_fit]
      rw [settleStep_tot]
      simp
    · rw [ih _ (by simp) (by rw [settleStep_lp]; simp at hT ⊢; omega)]
      rw [settleStep_acts, List.countP_append, List.countP_append]
      rw [if_neg (by simp at hT; omega), countP_body_fit]
      simp

theorem fold_acts_mem (T : Nat) (termo : String) :
    ∀ (settles : List (Linha × Except Nat Posicoes)) (acc : FanAcc) (a : Act),
      a ∈ (settles.foldl (settleStep T termo) acc).acts →
      a ∈ acc.acts ∨ fanActLike a = true := by
  intro settles
  induction settles with
  | nil => intro acc a ha; exact Or.inl ha
  | cons e rest ih =>
    intro acc a ha
    rw [List.foldl_cons] at ha
    rcases ih _ a ha with h | h
    · rw [settleStep_acts] at h
      rcases List.mem_append.mp h with h2 | h2
      · exact Or.inl h2
      · rcases List.mem_append.mp h2 with h3 | h3
        · exact Or.inr (isAdd_fanActLike (settleBody_acts _ _ _ a h3))
        · right
          rcases Decidable.em (acc.linhasProcessadas + 1 = T) with hc | hc
          · rw [if_pos hc] at h3
            exact mostrar_mem_fanActLike _ _ _ a h3
          · rw [if_neg hc] at h3
            simp at h3
    · exact Or.inr h

theorem fold_inv (T : Nat) (termo : String) :
    ∀ (settles : List (Linha × Except Nat Posicoes)) (acc : FanAcc),
      acc.st.marcadoresOnibus.length ≤ acc.totalOnibus →
      ((settles.foldl (settleStep T termo) acc).st.marcadoresOnibus.length
        ≤ (settles.foldl (settleStep T termo) acc).totalOnibus) := by
  intro settles
  induction settles with
  | nil => intro acc h; exact h
  | cons e rest ih =>
    intro acc h
    rw [List.foldl_cons]
    refine ih _ ?_
    rw [settleStep_st, settleStep_tot]
    exact settleBody_inv _ _ _ h

theorem dispatchList_length (linhas : List Linha) :
    (dispatchList linhas).length
      = (linhas.filter fun l => (extrairCodigo l).isSome).length := by
  induction linhas with
  | nil => rfl
  | cons l rest ih =>
    unfold dispatchList at ih ⊢
    cases h : extrairCodigo l <;>
      simp [List.filterMap_cons, List.filter_cons, h, ih]

theorem dispatchList_length_all (linhas : List Linha)
    (hall : (linhas.all fun l => (extrairCodigo l).isSome) = true) :
    (dispatchList linhas).length = linhas.length := by
  rw [dispatchList_length, List.filter_eq_self.mpr (List.all_eq_true.mp hall)]

theorem reqActs_countP_reqPos (lcs : List (Linha × String)) :
    ((lcs.map fun lc => Act.reqPos lc.2).countP Act.isReqPos) = lcs.length := by
  induction lcs with
  | nil => rfl
  | cons lc rest ih => simp [List.countP_cons, ih, Act.isReqPos]

theorem reqActs_countP_zero (p : Act → Bool) (hp : ∀ c, p (Act.reqPos c) = false)
    (lcs : List (Linha × String)) :
    ((lcs.map fun lc => Act.reqPos lc.2).countP p) = 0 := by
  rw [List.countP_eq_zero]
  intro a ha
  rcases List.mem_map.mp ha with ⟨lc, _, h⟩
  subst h
  simp [hp]

theorem removeActs_countP_zero (p : Act → Bool) (hp : ∀ i, p (Act.removeMarker i) = false)
    (ids : List Nat) :
    ((ids.map Act.removeMarker).countP p) = 0 := by
  rw [List.countP_eq_zero]
  intro a ha
  rcases List.mem_map.mp ha with ⟨i, _, h⟩
  subst h
  simp [hp]

theorem removeActs_filter (ids : List Nat) :
    ((ids.map Act.removeMarker).filter Act.isRemove) = ids.map Act.removeMarker := by
  rw [List.filter_eq_self]
  intro a ha
  rcases List.mem_map.mp ha with ⟨i, _, h⟩
  subst h
  rfl

theorem erase_foldl_self (l : List Nat) :
    List.foldl (fun ls mk => ls.erase mk) l l = [] := by
  induction l with
  | nil => rfl
  | cons a t ih =>
    rw [List.foldl_cons]
    simp only [List.erase_cons_head]
    exact ih

theorem take_len_succ_append (A : List Act) (b : Act) (rest : List Act) :
    (A ++ b :: rest).take (A.length + 1) = A ++ [b] := by
  induction A with
  | nil => rfl
  | cons x xs ih => simp only [List.cons_append, List.length_cons, List.take_succ_cons, ih]

theorem fold_countP_zero (T : Nat) (termo : String)
    (settles : List (Linha × Except Nat Posicoes)) (st : AppState)
    (p : Act → Bool) (hp : ∀ a, fanActLike a = true → p a = false) :
    ((settles.foldl (settleStep T termo) ⟨st, 0, 0, []⟩).acts).countP p = 0 := by
  rw [List.countP_eq_zero]
  intro a ha
  rcases fold_acts_mem T termo settles ⟨st, 0, 0, []⟩ a ha with h | h
  · simp at h
  · simp [hp a h]

theorem buscarLinhas_ok (env : Env) (termo : String) :
    ∃ r, (SptransService.buscarLinhas env termo).1 = Except.ok r := by
  unfold SptransService.buscarLinhas
  cases h : env.linhasHttp termo with
  | ok v => exact ⟨v, by simp [rxCatch, h]⟩
  | error s => exact ⟨.arr [], by simp [rxCatch, h]⟩

/-- A component state right after a successful map initialisation, with no
markers on the map and an empty previous search. -/
def stVazio : AppState :=
  { termoBusca := "8000", carregando := false, totalBuscas := 0, ultimoErro := "",
    marcadoresOnibus := [], mapa := some { layers := [] }, nextId := 0 }

/-- A line object none of whose candidate code fields is truthy (as the
upstream API may return: the component logs and skips such lines). -/
def linhaSemCodigo : Linha :=
  { cl := none, c := none, codigo := none, codigoLinha := none, sl := none }

/-- A line object with a truthy code in the cl field. -/
def linhaCom : Linha :=
  { cl := some "1145", c := none, codigo := none, codigoLinha := none, sl := some "Centro" }

/-- One settle event: the single dispatched request answers with an empty
vehicle array. -/
def settlesUm : List (Linha × Except Nat Posicoes) :=
  [(linhaCom, .ok { hr := "", vs := some [] })]

/-- C1: counterexample.  The claim asserts that every search whose
line-search response is a non-empty array invokes mostrarResultadoFinal
exactly once.  For the non-empty response consisting of one line with no
truthy code field, the component dispatches zero position requests
(dispatchList is empty), so linhasProcessadas never reaches totalLinhas
and the summary never fires: the trace of processarLinhas contains zero
resultadoFinal invocations after all (zero) dispatched requests have
settled. -/
theorem processarLinhas_summary_nao_dispara :
    dispatchList [linhaSemCodigo] = [] ∧
    ¬ (((processarLinhas stVazio (.arr [linhaSemCodigo]) "8000" []).2).countP
        Act.isFinal = 1) := by
  constructor
  · rfl
  · decide

/-- C1 (amended): for every search whose line-search response is a
non-empty array all of whose lines carry a truthy code (so that one
position request is dispatched per line), once every dispatched request
has settled (in any order, with any outcome) the completion summary
mostrarResultadoFinal has been invoked exactly once, and it has not been
invoked before the last settle event. -/
theorem processarLinhas_summary_exactly_once (st : AppState) (linhas : List Linha)
    (termo : String) (settles : List (Linha × Except Nat Posicoes))
    (hne : linhas ≠ []) (hall : (linhas.all fun l => (extrairCodigo l).isSome) = true)
    (hlen : settles.length = (dispatchList linhas).length) :
    ((processarLinhas st (.arr linhas) termo settles).2).countP Act.isFinal = 1 ∧
    ((settles.dropLast.foldl (settleStep linhas.length termo)
        ⟨st, 0, 0, []⟩).acts).countP Act.isFinal = 0 := by
  have hlenT : settles.length = linhas.length := by
    rw [hlen, dispatchList_length_all linhas hall]
  have hpos : 0 < linhas.length := List.length_pos.mpr hne
  constructor
  · simp only [processarLinhas]
    rw [if_neg (by simpa using hne)]
    rw [List.countP_append]
    rw [reqActs_countP_zero Act.isFinal (fun c => rfl)]
    unfold processarLinhasAcc
    rw [fold_finals_exact linhas.length termo settles ⟨st, 0, 0, []⟩
      (by intro h; subst h; simp at hlenT; omega) (by simpa using hlenT)]
    rfl
  · apply fold_finals_under
    simp only [List.length_dropLast, hlenT]
    omega

/-- C1 witness. -/
theorem processarLinhas_summary_exactly_once_witness :
    ((processarLinhas stVazio (.arr [linhaCom]) "1145" settlesUm).2).countP
      Act.isFinal = 1 ∧
    ((settlesUm.dropLast.foldl (settleStep [linhaCom].length "1145")
        ⟨stVazio, 0, 0, []⟩).acts).countP Act.isFinal = 0 :=
  processarLinhas_summary_exactly_once stVazio [linhaCom] "1145" settlesUm
    (by decide) (by decide) (by decide)

/-- C2: every API-client operation degrades an upstream failure to its
benign default successful value: buscarLinhas emits the empty array,
buscarPosicoes the record with empty hr and empty vs, and verificarStatus
the status record with autenticado false and erro true. -/
theorem service_degrada_falhas (env : Env) (termo cod : String) (s1 s2 s3 : Nat)
    (h1 : env.linhasHttp termo = .error s1) (h2 : env.posHttp cod = .error s2)
    (h3 : env.statusHttp = .error s3) :
    (SptransService.buscarLinhas env termo).1 = .ok (.arr []) ∧
    (SptransService.buscarPosicoes env cod).1 = .ok { hr := "", vs := some [] } ∧
    (SptransService.verificarStatus env).1 = .ok { autenticado := false, erro := true } := by
  refine ⟨?_, ?_, ?_⟩ <;>
    simp [SptransService.buscarLinhas, SptransService.buscarPosicoes,
      SptransService.verificarStatus, rxCatch, h1, h2, h3]

/-- An upstream world in which every endpoint fails with HTTP 500. -/
def envFalha : Env :=
  { linhasHttp := fun _ => .error 500, posHttp := fun _ => .error 500,
    statusHttp := .error 500 }

/-- C2 witness. -/
theorem service_degrada_falhas_witness :
    (SptransService.buscarLinhas envFalha "8000").1 = .ok (.arr []) ∧
    (SptransService.buscarPosicoes envFalha "1145").1 = .ok { hr := "", vs := some [] } ∧
    (SptransService.verificarStatus envFalha).1
      = .ok { autenticado := false, erro := true } :=
  service_degrada_falhas envFalha "8000" "1145" 500 500 500 rfl rfl rfl

/-- C3: counterexample.  The claim asserts that a non-empty response of n
lines produces exactly n position requests regardless of the shape of the
line objects.  For the single line with no truthy code field, the forEach
skips the line and zero position requests are dispatched, not one. -/
theorem processarLinhas_dispatch_nao_por_forma :
    ¬ (((processarLinhas stVazio (.arr [linhaSemCodigo]) "8000" []).2).countP
        Act.isReqPos = [linhaSemCodigo].length) := by
  decide

/-- C3 (amended): for every search whose line-search response is a
non-empty array, the view controller dispatches exactly one
fetch-positions request per returned line whose extracted code is
truthy; lines with no truthy code field are skipped. -/
theorem processarLinhas_dispatch_por_linha (st : AppState) (linhas : List Linha)
    (termo : String) (settles : List (Linha × Except Nat Posicoes))
    (hne : linhas ≠ []) :
    ((processarLinhas st (.arr linhas) termo settles).2).countP Act.isReqPos
      = (linhas.filter fun l => (extrairCodigo l).isSome).length := by
  simp only [processarLinhas]
  rw [if_neg (by simpa using hne)]
  rw [List.countP_append, reqActs_countP_reqPos, ← dispatchList_length]
  unfold processarLinhasAcc
  rw [fold_countP_zero _ _ _ _ Act.isReqPos (fun a h => fanActLike_not_reqPos h)]
  simp

/-- C3 witness. -/
theorem processarLinhas_dispatch_por_linha_witness :
    ((processarLinhas stVazio (.arr [linhaCom]) "1145" settlesUm).2).countP
      Act.isReqPos
      = ([linhaCom].filter fun l => (extrairCodigo l).isSome).length :=
  processarLinhas_dispatch_por_linha stVazio [linhaCom] "1145" settlesUm (by decide)

/-- C4: counterexample.  The claim asserts that on every fan-in
completion the view controller both fits the viewport and reports the
summary.  For a single coded line whose position request settles with an
empty vehicle array, the completion summary is reported (one
resultadoFinal act) but no fitBounds act occurs, because
mostrarResultadoFinal only fits the viewport when totalOnibus is
positive. -/
theorem fanin_completa_sem_fit :
    ((processarLinhas stVazio (.arr [linhaCom]) "1145" settlesUm).2).countP
      Act.isFinal = 1 ∧
    ¬ (((processarLinhas stVazio (.arr [linhaCom]) "1145" settlesUm).2).countP
        Act.isFit = 1) := by
  constructor <;> decide

/-- C4 (amended): for every search whose response lines all carry truthy
codes, when the completed-count reaches the dispatched count the totals
summary is reported exactly once, and the viewport fit happens at that
completion exactly when the running bus total is positive (a zero-bus
completion reports the summary without any viewport change). -/
theorem fanin_fit_sse_onibus (st : AppState) (linhas : List Linha)
    (termo : String) (settles : List (Linha × Except Nat Posicoes))
    (hne : linhas ≠ []) (hall : (linhas.all fun l => (extrairCodigo l).isSome) = true)
    (hlen : settles.length = (dispatchList linhas).length) :
    ((processarLinhas st (.arr linhas) termo settles).2).countP Act.isFinal = 1 ∧
    ((processarLinhas st (.arr linhas) termo settles).2).countP Act.isFit
      = (if 0 < (processarLinhasAcc st linhas termo settles).totalOnibus
         then 1 else 0) := by
  have hlenT : settles.length = linhas.length := by
    rw [hlen, dispatchList_length_all linhas hall]
  have hsne : settles ≠ [] := by
    intro h; subst h
    simp at hlenT
    exact hne (List.eq_nil_of_length_eq_zero hlenT.symm)
  constructor
  · simp only [processarLinhas]
    rw [if_neg (by simpa using hne)]
    rw [List.countP_append, reqActs_countP_zero Act.isFinal (fun c => rfl)]
    unfold processarLinhasAcc
    rw [fold_finals_exact linhas.length termo settles ⟨st, 0, 0, []⟩ hsne
      (by simpa using hlenT)]
    rfl
  · simp only [processarLinhas]
    rw [if_neg (by simpa using hne)]
    rw [List.countP_append, reqActs_countP_zero Act.isFit (fun c => rfl)]
    unfold processarLinhasAcc
    rw [fold_fits_exact linhas.length termo settles ⟨st, 0, 0, []⟩ hsne
      (by simpa using hlenT)]
    simp

/-- A parseable vehicle: both coordinates parse to finite numbers. -/
def veiculoValido : Veiculo := { py := some 1, px := some 2, ta := none, a := false }

/-- One settle event carrying one parseable vehicle. -/
def settlesOnibus : List (Linha × Except Nat Posicoes) :=
  [(linhaCom, .ok { hr := "10:00", vs := some [veiculoValido] })]

/-- C4 witness. -/
theorem fanin_fit_sse_onibus_witness :
    ((processarLinhas stVazio (.arr [linhaCom]) "1145" settlesOnibus).2).countP
      Act.isFinal = 1 ∧
    ((processarLinhas stVazio (.arr [linhaCom]) "1145" settlesOnibus).2).countP
      Act.isFit
      = (if 0 < (processarLinhasAcc stVazio [linhaCom] "1145" settlesOnibus).totalOnibus
         then 1 else 0) :=
  fanin_fit_sse_onibus stVazio [linhaCom] "1145" settlesOnibus
    (by decide) (by decide) (by decide)

theorem mostrar_countP_add (t lp : Nat) (termo : String) :
    (mostrarResultadoFinal t lp termo).countP Act.isAdd = 0 := by
  unfold mostrarResultadoFinal
  by_cases h : 0 < t <;> simp [h, List.countP_cons, Act.isAdd]

/-- C5: a per-line position fetch that fails is still counted toward the
completed-count (linhasProcessadas is incremented) while leaving the
component state, the running bus total and the set of marker additions
unchanged; and such failures do not prevent completion reporting: for a
search whose lines all carry truthy codes, once every dispatched request
has settled (errors included, as in the settle list hypothesised to
contain one) the summary still fires exactly once. -/
theorem falha_por_linha_contada (T : Nat) (termo : String) (acc : FanAcc)
    (l : Linha) (s : Nat) (st : AppState) (linhas : List Linha) (termo2 : String)
    (settles : List (Linha × Except Nat Posicoes))
    (hne : linhas ≠ []) (hall : (linhas.all fun l2 => (extrairCodigo l2).isSome) = true)
    (hlen : settles.length = (dispatchList linhas).length)
    (herr : (l, Except.error s) ∈ settles) :
    (settleStep T termo acc (l, .error s)).linhasProcessadas
      = acc.linhasProcessadas + 1 ∧
    (settleStep T termo acc (l, .error s)).st = acc.st ∧
    (settleStep T termo acc (l, .error s)).totalOnibus = acc.totalOnibus ∧
    ((settleStep T termo acc (l, .error s)).acts).countP Act.isAdd
      = acc.acts.countP Act.isAdd ∧
    ((processarLinhas st (.arr linhas) termo2 settles).2).countP Act.isFinal = 1 := by
  have hb : settleBody acc.st acc.totalOnibus (l, Except.error s)
      = (acc.st, acc.totalOnibus, []) := rfl
  have hlenT : settles.length = linhas.length := by
    rw [hlen, dispatchList_length_all linhas hall]
  have hpos : 0 < linhas.length := List.length_pos.mpr hne
  refine ⟨rfl, ?_, ?_, ?_, ?_⟩
  · rw [settleStep_st, hb]
  · rw [settleStep_tot, hb]
  · rw [settleStep_acts, hb, List.countP_append, List.countP_append]
    rcases Decidable.em (acc.linhasProcessadas + 1 = T) with hc | hc
    · rw [if_pos hc]
      simp [mostrar_countP_add]
    · rw [if_neg hc]
      simp
  · simp only [processarLinhas]
    rw [if_neg (by simpa using hne)]
    rw [List.countP_append, reqActs_countP_zero Act.isFinal (fun c => rfl)]
    unfold processarLinhasAcc
    rw [fold_finals_exact linhas.length termo2 settles ⟨st, 0, 0, []⟩
      (by intro h2; subst h2; simp at hlenT; omega) (by simpa using hlenT)]
    rfl

/-- A settle list in which the single dispatched request fails with
HTTP 500. -/
def settlesErro : List (Linha × Except Nat Posicoes) := [(linhaCom, .error 500)]

/-- A fan-in accumulator mid-search: three buses already counted, no
request settled yet. -/
def accEx : FanAcc := ⟨stVazio, 3, 0, []⟩

/-- C5 witness. -/
theorem falha_por_linha_contada_witness :
    (settleStep 2 "x" accEx (linhaCom, .error 500)).linhasProcessadas
      = accEx.linhasProcessadas + 1 ∧
    (settleStep 2 "x" accEx (linhaCom, .error 500)).st = accEx.st ∧
    (settleStep 2 "x" accEx (linhaCom, .error 500)).totalOnibus = accEx.totalOnibus ∧
    ((settleStep 2 "x" accEx (linhaCom, .error 500)).acts).countP Act.isAdd
      = accEx.acts.countP Act.isAdd ∧
    ((processarLinhas stVazio (.arr [linhaCom]) "1145" settlesErro).2).countP
      Act.isFinal = 1 :=
  falha_por_linha_contada 2 "x" accEx linhaCom 500 stVazio [linhaCom] "1145"
    settlesErro (by decide) (by decide) (by decide) (by decide)

/-- A state holding one marker left by a previous search, present both in
the marker list and on the map. -/
def stComMarcador : AppState :=
  { termoBusca := "8000", carregando := false, totalBuscas := 1, ultimoErro := "",
    marcadoresOnibus := [7], mapa := some { layers := [7] }, nextId := 8 }

/-- An upstream world whose line search finds nothing and whose other
endpoints succeed with defaults. -/
def envSemLinhas : Env :=
  { linhasHttp := fun _ => .ok (.arr []),
    posHttp := fun _ => .ok { hr := "", vs := some [] },
    statusHttp := .ok { autenticado := true, erro := false } }

/-- C6: counterexample.  The claim asserts that a search with zero
matching lines performs zero map mutations, removing no marker.  With a
marker left over from the previous search, the preparation step of the
new search (limparMarcadores, run before the request goes out) removes
that marker from the map, so the trace of the zero-result search does
contain a marker removal. -/
theorem busca_vazia_remove_anteriores :
    ¬ (((componentBuscarLinhas envSemLinhas stComMarcador []).2).countP
        Act.isRemove = 0) := by
  decide

/-- C6 (amended): a search whose line-search emission is the empty array
adds no marker to the map and performs no viewport change; the only map
mutations of such a search are the start-of-search removals of the
previous search's markers, so the removals in its trace are exactly one
per previously held marker. -/
theorem busca_vazia_sem_novas_mutacoes (env : Env) (st : AppState)
    (settles : List (Linha × Except Nat Posicoes))
    (h : (SptransService.buscarLinhas env (jsTrim st.termoBusca)).1 = .ok (.arr []))
    (hterm : ¬ (jsTrim st.termoBusca) = "") (hm : st.mapa.isNone = false) :
    ((componentBuscarLinhas env st settles).2).countP Act.isAdd = 0 ∧
    ((componentBuscarLinhas env st settles).2).countP Act.isFit = 0 ∧
    ((componentBuscarLinhas env st settles).2).filter Act.isRemove
      = st.marcadoresOnibus.map Act.removeMarker := by
  rcases hmap : st.mapa with _ | m
  · rw [hmap] at hm; simp at hm
  · have h2 : (componentBuscarLinhas env st settles).2
        = st.marcadoresOnibus.map Act.removeMarker
          ++ Act.reqLinhas (jsTrim st.termoBusca)
            :: [Act.alert ("nenhuma linha encontrada para " ++ (jsTrim st.termoBusca))] := by
      simp only [componentBuscarLinhas]
      rw [if_neg hterm, if_neg (by simp [hmap])]
      rw [h]
      simp only [limparMarcadores, hmap, processarLinhas, List.isEmpty_nil, if_pos]
    rw [h2]
    refine ⟨?_, ?_, ?_⟩
    · rw [List.countP_append, removeActs_countP_zero Act.isAdd (fun i => rfl)]
      simp [List.countP_cons, Act.isAdd]
    · rw [List.countP_append, removeActs_countP_zero Act.isFit (fun i => rfl)]
      simp [List.countP_cons, Act.isFit]
    · rw [List.filter_append, removeActs_filter]
      simp [List.filter, Act.isRemove]

/-- C6 witness. -/
theorem busca_vazia_sem_novas_mutacoes_witness :
    ((componentBuscarLinhas envSemLinhas stComMarcador []).2).countP Act.isAdd = 0 ∧
    ((componentBuscarLinhas envSemLinhas stComMarcador []).2).countP Act.isFit = 0 ∧
    ((componentBuscarLinhas envSemLinhas stComMarcador []).2).filter Act.isRemove
      = stComMarcador.marcadoresOnibus.map Act.removeMarker :=
  busca_vazia_sem_novas_mutacoes envSemLinhas stComMarcador []
    (by decide) (by decide) (by decide)

theorem take_removes (ids : List Nat) (b : Act) (rest : List Act) :
    ((ids.map Act.removeMarker) ++ b :: rest).take (ids.length + 1)
      = ids.map Act.removeMarker ++ [b] := by
  have h := take_len_succ_append (ids.map Act.removeMarker) b rest
  rwa [List.length_map] at h

/-- The component state after the preparation step of buscarLinhas:
loading flag raised, ultimoErro reset, search counter bumped. -/
def stPreparada (st : AppState) : AppState :=
  { st with carregando := true, ultimoErro := "", totalBuscas := st.totalBuscas + 1 }

/-- The component state reaching processarLinhas: loading flag raised and
lowered again, previous markers cleared. -/
def stAposLimpeza (st : AppState) : AppState :=
  { (limparMarcadores (stPreparada st)).1 with carregando := false }

theorem componentBuscar_trace_ok (env : Env) (st : AppState)
    (settles : List (Linha × Except Nat Posicoes)) (m : MapState) (r : LinhasResp)
    (hm : st.mapa = some m) (hterm : ¬ jsTrim st.termoBusca = "")
    (hr : (SptransService.buscarLinhas env (jsTrim st.termoBusca)).1 = Except.ok r) :
    (componentBuscarLinhas env st settles).2
      = st.marcadoresOnibus.map Act.removeMarker
        ++ Act.reqLinhas (jsTrim st.termoBusca)
          :: (processarLinhas (stAposLimpeza st) r (jsTrim st.termoBusca) settles).2 := by
  have hclear : (limparMarcadores (stPreparada st)).2
      = st.marcadoresOnibus.map Act.removeMarker := by
    simp [limparMarcadores, stPreparada, hm]
  simp only [componentBuscarLinhas, stAposLimpeza, stPreparada] at hclear ⊢
  rw [if_neg hterm, if_neg (by simp [hm]), hr, hclear]

/-- C7: at the start of every new search that passes input and
map-readiness validation, the previous markers are destroyed before any
request goes out: limparMarcadores empties the marker list, and when the
map overlay list is exactly the held markers it empties the overlay list
too; the trace of the search starts with one removal per previously held
marker, followed immediately by the line-search request, so no request
precedes the clearing. -/
theorem limpar_antes_de_buscar (st : AppState) (env : Env)
    (settles : List (Linha × Except Nat Posicoes)) (m : MapState)
    (hm : st.mapa = some m) (hlay : m.layers = st.marcadoresOnibus)
    (hterm : ¬ jsTrim st.termoBusca = "") :
    (limparMarcadores st).1.marcadoresOnibus = [] ∧
    (limparMarcadores st).1.mapa = some { layers := [] } ∧
    ((componentBuscarLinhas env st settles).2).take (st.marcadoresOnibus.length + 1)
      = st.marcadoresOnibus.map Act.removeMarker
        ++ [Act.reqLinhas (jsTrim st.termoBusca)] := by
  refine ⟨?_, ?_, ?_⟩
  · simp [limparMarcadores, hm]
  · simp [limparMarcadores, hm, hlay, erase_foldl_self]
  · rcases buscarLinhas_ok env (jsTrim st.termoBusca) with ⟨r, hr⟩
    rw [componentBuscar_trace_ok env st settles m r hm hterm hr, take_removes]

/-- C7 witness. -/
theorem limpar_antes_de_buscar_witness :
    (limparMarcadores stComMarcador).1.marcadoresOnibus = [] ∧
    (limparMarcadores stComMarcador).1.mapa = some { layers := [] } ∧
    ((componentBuscarLinhas envSemLinhas stComMarcador []).2).take
        (stComMarcador.marcadoresOnibus.length + 1)
      = stComMarcador.marcadoresOnibus.map Act.removeMarker
        ++ [Act.reqLinhas (jsTrim stComMarcador.termoBusca)] :=
  limpar_antes_de_buscar stComMarcador envSemLinhas [] { layers := [7] }
    (by decide) (by decide) (by decide)

theorem limpar_countP_zero (st : AppState) (p : Act → Bool)
    (hp : ∀ i, p (Act.removeMarker i) = false) :
    ((limparMarcadores st).2).countP p = 0 := by
  rcases hm : st.mapa with _ | m <;>
    simp [limparMarcadores, hm, removeActs_countP_zero p hp]

theorem processarLinhas_countP_erro (st : AppState) (resp : LinhasResp)
    (termo : String) (settles : List (Linha × Except Nat Posicoes)) :
    ((processarLinhas st resp termo settles).2).countP Act.isErro = 0 := by
  cases resp with
  | nullResp => rfl
  | notArray => rfl
  | arr linhas =>
    by_cases he : linhas.isEmpty
    · simp only [processarLinhas]
      rw [if_pos he]
      rfl
    · simp only [processarLinhas]
      rw [if_neg he]
      rw [List.countP_append, reqActs_countP_zero Act.isErro (fun c => rfl)]
      unfold processarLinhasAcc
      rw [fold_countP_zero _ _ _ _ Act.isErro (fun a h => fanActLike_not_erro h)]

/-- C8: the view controller has no reachable failure path from the API
client: the service buscarLinhas always settles with a value (its
catchError converts every upstream failure to the empty array), so the
error callback of the search subscription, and with it mostrarErro and
its HTTP-status alerting, is never invoked during any search. -/
theorem sem_caminho_de_falha (env : Env) (termo : String) (st : AppState)
    (settles : List (Linha × Except Nat Posicoes)) :
    (∃ r, (SptransService.buscarLinhas env termo).1 = Except.ok r) ∧
    ((componentBuscarLinhas env st settles).2).countP Act.isErro = 0 := by
  refine ⟨buscarLinhas_ok env termo, ?_⟩
  by_cases hterm : jsTrim st.termoBusca = ""
  · simp only [componentBuscarLinhas]
    rw [if_pos hterm]
    rfl
  · rcases hmres : st.mapa with _ | m
    · simp only [componentBuscarLinhas]
      rw [if_neg hterm, if_pos (by simp [hmres])]
      rfl
    · rcases buscarLinhas_ok env (jsTrim st.termoBusca) with ⟨r, hr⟩
      rw [componentBuscar_trace_ok env st settles m r hmres hterm hr,
        List.countP_append, List.countP_cons]
      rw [removeActs_countP_zero Act.isErro (fun i => rfl),
        processarLinhas_countP_erro]
      rfl

/-- C9: for a term whose line search settles with a non-empty array,
buscarTodasPosicoes issues only the line-search request (no per-line
position request is executed by it) and emits the array of the
unresolved per-line observables themselves, one per line, rather than
resolved line-with-positions records. -/
theorem buscarTodas_emite_observables (env : Env) (termo : String) (ls : List Linha)
    (h : env.linhasHttp termo = .ok (.arr ls)) (hne : ls ≠ []) :
    (SptransService.buscarTodasPosicoes env termo).2 = [Req.linhas termo] ∧
    ((SptransService.buscarTodasPosicoes env termo).2).countP Req.isPos = 0 ∧
    (SptransService.buscarTodasPosicoes env termo).1 = .ok (ls.map posObsParaLinha) ∧
    (ls.map posObsParaLinha).length = ls.length := by
  have hb : (SptransService.buscarLinhas env termo).1 = .ok (.arr ls) := by
    simp [SptransService.buscarLinhas, rxCatch, h]
  have heq : SptransService.buscarTodasPosicoes env termo
      = (.ok (ls.map posObsParaLinha), [Req.linhas termo]) := by
    simp only [SptransService.buscarTodasPosicoes]
    rw [hb]
    dsimp only
    rw [if_neg (by simpa using hne)]
    rfl
  refine ⟨by rw [heq], by rw [heq]; rfl, by rw [heq], by simp⟩

/-- An upstream world whose line search finds exactly one coded line. -/
def envUmaLinha : Env :=
  { linhasHttp := fun _ => .ok (.arr [linhaCom]),
    posHttp := fun _ => .ok { hr := "", vs := some [] },
    statusHttp := .ok { autenticado := true, erro := false } }

/-- C9 witness. -/
theorem buscarTodas_emite_observables_witness :
    (SptransService.buscarTodasPosicoes envUmaLinha "1145").2 = [Req.linhas "1145"] ∧
    ((SptransService.buscarTodasPosicoes envUmaLinha "1145").2).countP Req.isPos = 0 ∧
    (SptransService.buscarTodasPosicoes envUmaLinha "1145").1
      = .ok ([linhaCom].map posObsParaLinha) ∧
    ([linhaCom].map posObsParaLinha).length = [linhaCom].length :=
  buscarTodas_emite_observables envUmaLinha "1145" [linhaCom] rfl (by decide)

/-- A vehicle whose latitude fails numeric parsing (parseFloat NaN): it
is counted in totalOnibus but adds no marker. -/
def veiculoSemCoord : Veiculo := { py := none, px := some 1, ta := none, a := true }

/-- A settle list whose single response carries one unparseable
vehicle. -/
def settlesNaN : List (Linha × Except Nat Posicoes) :=
  [(linhaCom, .ok { hr := "", vs := some [veiculoSemCoord] })]

/-- C10: throughout the fan-in of a search that starts with the marker
list cleared, after any prefix of the settle events the number of markers
held is at most the running bus total; and the inequality can be strict:
the concrete search whose only vehicle has an unparseable latitude ends
with zero markers but bus total one. -/
theorem marcadores_le_total (st : AppState) (linhas : List Linha) (termo : String)
    (settles : List (Linha × Except Nat Posicoes)) (n : Nat)
    (h0 : st.marcadoresOnibus = []) :
    (((settles.take n).foldl (settleStep linhas.length termo)
        ⟨st, 0, 0, []⟩).st.marcadoresOnibus.length
      ≤ ((settles.take n).foldl (settleStep linhas.length termo)
        ⟨st, 0, 0, []⟩).totalOnibus) ∧
    ((processarLinhasAcc stVazio [linhaCom] "1145" settlesNaN).st.marcadoresOnibus.length
      < (processarLinhasAcc stVazio [linhaCom] "1145" settlesNaN).totalOnibus) := by
  constructor
  · exact fold_inv _ _ _ _ (by simp [h0])
  · decide

/-- C10 witness. -/
theorem marcadores_le_total_witness :
    (((settlesOnibus.take 1).foldl (settleStep [linhaCom].length "1145")
        ⟨stVazio, 0, 0, []⟩).st.marcadoresOnibus.length
      ≤ ((settlesOnibus.take 1).foldl (settleStep [linhaCom].length "1145")
        ⟨stVazio, 0, 0, []⟩).totalOnibus) ∧
    ((processarLinhasAcc stVazio [linhaCom] "1145" settlesNaN).st.marcadoresOnibus.length
      < (processarLinhasAcc stVazio [linhaCom] "1145" settlesNaN).totalOnibus) :=
  marcadores_le_total stVazio [linhaCom] "1145" settlesOnibus 1 (by decide)
